import Mathlib

/-!
Verification of the storefront client's cart, catalog and error-handling
behaviour, as a shallow embedding of the JavaScript sources
(`src/services/magentoApi.js`, `src/api/magento.js`,
`src/components/ProductDetailPage.js`, `src/components/ProductDetail.js`,
the REST service in `src/unnamed/part_016` and the CORS helper in
`src/unnamed/part_002`).

JavaScript conventions used throughout the embedding:
* `localStorage.getItem` returns `null` or a string: modelled as `Option String`;
  JS string truthiness (`""` is falsy) is `jsTruthy`.
* `String.prototype.includes` is `jsIncludes`.
* thrown `Error` values are `Except.error msg` (only the message is observable
  by the code under study).
* network `fetch` responses are scripted by environments passed explicitly.
-/

/-- JS `pat` occurs as a contiguous substring of the character list. -/
def listIncludes (pat : List Char) : List Char → Bool
  | [] => pat.isEmpty
  | c :: rest => pat.isPrefixOf (c :: rest) || listIncludes pat rest

/-- `String.prototype.includes` : does `s` contain `pat`? -/
def jsIncludes (s pat : String) : Bool :=
  listIncludes pat.data s.data

/-- JS truthiness of a `localStorage.getItem` result (`null` and `""` are falsy). -/
def jsTruthy : Option String → Bool
  | none => false
  | some s => s ≠ ""

/-- `Array.prototype.join('; ')` over GraphQL error messages. -/
def joinSemicolon (l : List String) : String :=
  String.intercalate "; " l

/-- Longest leading run of decimal digits. -/
def leadingDigits : List Char → List Char
  | [] => []
  | c :: cs => if c.isDigit then c :: leadingDigits cs else []

/-- Numeric value of a digit run. -/
def digitsToNat (l : List Char) : Nat :=
  l.foldl (fun acc c => acc * 10 + (c.toNat - 48)) 0

/-- JS `parseInt(s)`: parse an optional sign and leading digits; `none` models `NaN`. -/
def jsParseInt (s : String) : Option Int :=
  match s.data with
  | '-' :: rest =>
    match leadingDigits rest with
    | [] => none
    | ds => some (-(digitsToNat ds : Int))
  | l =>
    match leadingDigits l with
    | [] => none
    | ds => some (digitsToNat ds : Int)

/-- Hexadecimal digit character (uppercase), for percent-encoding. -/
def hexDigitChar (n : Nat) : Char :=
  if n < 10 then Char.ofNat (48 + n) else Char.ofNat (55 + n)

/-- UTF-8 byte sequence of a code point, as used by `encodeURIComponent`. -/
def utf8Bytes (n : Nat) : List Nat :=
  if n < 128 then [n]
  else if n < 2048 then [192 + n / 64, 128 + n % 64]
  else if n < 65536 then [224 + n / 4096, 128 + (n / 64) % 64, 128 + n % 64]
  else [240 + n / 262144, 128 + (n / 4096) % 64, 128 + (n / 64) % 64, 128 + n % 64]

/-- Characters `encodeURIComponent` leaves unescaped. -/
def isUnescapedURI (c : Char) : Bool :=
  c.isAlphanum || c = '-' || c = '_' || c = '.' || c = '!' || c = '~' ||
    c = '*' || c.toNat = 39 || c = '(' || c = ')'

/-- Percent-encoding of one byte. -/
def percentByte (b : Nat) : List Char :=
  ['%', hexDigitChar (b / 16), hexDigitChar (b % 16)]

/-- JS `encodeURIComponent`. -/
def encodeURIComponent (s : String) : String :=
  String.mk (s.data.foldr
    (fun c acc => if isUnescapedURI c then c :: acc else (utf8Bytes c.toNat).flatMap percentByte ++ acc)
    [])

/-! ### CORS proxy helper (`src/unnamed/part_002`, `src/utils/corsProxy.js`) -/

/-- First entry of `CORS_PROXIES`. -/
def corsProxyBase : String := "https://cors-anywhere.herokuapp.com/"

/-- ASCII lowercase of one character. -/
def charToLower (c : Char) : Char :=
  if 65 ≤ c.toNat && c.toNat ≤ 90 then Char.ofNat (c.toNat + 32) else c

/-- The regex test `/^https?:\/\//i` on a base URL. -/
def isAbsoluteHttp (baseUrl : String) : Bool :=
  "http://".data.isPrefixOf (baseUrl.data.map charToLower) ||
    "https://".data.isPrefixOf (baseUrl.data.map charToLower)

/-- `needsCorsProxy(baseUrl)` from the CORS helper. -/
def needsCorsProxy (baseUrl : String) : Bool :=
  if !isAbsoluteHttp baseUrl then false
  else if jsIncludes baseUrl "localhost" || jsIncludes baseUrl "127.0.0.1" then false
  else true

/-- `getCorsProxyUrl(url, useCorsProxy)` from the CORS helper. -/
def getCorsProxyUrl (url : String) (useCorsProxy : Bool) : String :=
  let isRelative := "/".data.isPrefixOf url.data
  if !useCorsProxy || isRelative || jsIncludes url "localhost" || jsIncludes url "127.0.0.1" then
    url
  else
    corsProxyBase ++ encodeURIComponent url

/-! ### REST product-list request construction (`src/unnamed/part_016`, `fetchProducts`) -/

/-- `MAGENTO_BASE_URL` of the REST service module. -/
def restBaseUrl : String := "http://localhost:8080/magento2/pub"

/-- `API_ENDPOINT` of the REST service module. -/
def restApiEndpoint : String := restBaseUrl ++ "/rest/V1"

/-- The `URLSearchParams` built by `fetchProducts`: an ordered list of
key/value pairs produced by the successive `append` calls. -/
def productsSearchParams (pageSize currentPage : Nat) : List (String × String) :=
  let p : List (String × String) := []
  let p := p ++ [("searchCriteria[pageSize]", toString pageSize)]
  let p := p ++ [("searchCriteria[currentPage]", toString currentPage)]
  let p := p ++ [("searchCriteria[filterGroups][0][filters][0][field]", "visibility")]
  let p := p ++ [("searchCriteria[filterGroups][0][filters][0][value]", "4")]
  let p := p ++ [("searchCriteria[filterGroups][0][filters][0][conditionType]", "eq")]
  let p := p ++ [("searchCriteria[filterGroups][1][filters][0][field]", "status")]
  let p := p ++ [("searchCriteria[filterGroups][1][filters][0][value]", "1")]
  let p := p ++ [("searchCriteria[filterGroups][1][filters][0][conditionType]", "eq")]
  p

/-- `URLSearchParams.toString()`: percent-encode keys and values and join with
`=` and `&`. -/
def searchParamsToString (l : List (String × String)) : String :=
  String.intercalate "&" (l.map (fun p => encodeURIComponent p.1 ++ "=" ++ encodeURIComponent p.2))

/-- The URL `fetchProducts` passes to `fetch`, including the CORS-proxy wrapper
(`USE_CORS_PROXY = needsCorsProxy(MAGENTO_BASE_URL)`). -/
def fetchProductsUrl (pageSize currentPage : Nat) : String :=
  getCorsProxyUrl (restApiEndpoint ++ "/products?" ++ searchParamsToString (productsSearchParams pageSize currentPage))
    (needsCorsProxy restBaseUrl)

/-! ### GraphQL request envelope handling (`src/api/magento.js` and
`src/services/magentoApi.js`) -/

/-- The JSON body of a GraphQL response as the client observes it:
an optional `errors` field (when present it is an array, possibly empty;
entries are modelled by their `message`, with `""` standing for a missing or
empty message, both falsy in JS) and an optional `data` field. -/
structure GqlEnvelope (α : Type) where
  errors : Option (List String)
  dat : Option α
  deriving DecidableEq

/-- An HTTP response: `ok` with a parsed JSON body, or a non-ok status with
the response text. -/
inductive HttpResp (α : Type) where
  | ok (body : α)
  | httpErr (status : Nat) (text : String)
  deriving DecidableEq

/-- Does `Except` hold an error? -/
def exceptIsErr {ε α : Type} : Except ε α → Bool
  | .error _ => true
  | .ok _ => false

/-- `graphqlRequest` from `src/api/magento.js` (lines 11-31): throws on a
non-ok HTTP status; then throws whenever `payload.errors` is truthy (any
array, even empty), with the first error's message or a generic fallback;
otherwise returns `payload.data`. -/
def graphqlRequest {α : Type} (resp : HttpResp (GqlEnvelope α)) : Except String (Option α) :=
  match resp with
  | .httpErr status text =>
    .error ("GraphQL request failed: " ++ toString status ++ " " ++ text)
  | .ok payload =>
    match payload.errors with
    | some errs =>
      .error (match errs with
        | m :: _ => if m = "" then "Unknown GraphQL error" else m
        | [] => "Unknown GraphQL error")
    | none => .ok payload.dat

/-- Error classification of `fetchProducts` in `src/services/magentoApi.js`
(lines 82-91 with the catch wrapper at 133-136): the thrown user-facing
message, or `none` when the call does not throw.  The check is
`gql.errors && gql.errors.length > 0`, so an empty errors array does not
throw. -/
def fetchProductsGqlError {α : Type} (resp : HttpResp (GqlEnvelope α)) : Option String :=
  match resp with
  | .httpErr status _ =>
    some ("Failed to fetch products: HTTP error! status: " ++ toString status)
  | .ok payload =>
    match payload.errors with
    | some (m :: ms) => some ("Failed to fetch products: " ++ joinSemicolon (m :: ms))
    | _ => none

/-- Is the HTTP response non-ok? -/
def isHttpRespErr {α : Type} : HttpResp α → Bool
  | .httpErr _ _ => true
  | .ok _ => false

/-- Does the response body carry a GraphQL `errors` array (possibly empty)? -/
def gqlCarriesErrorsArray {α : Type} : HttpResp (GqlEnvelope α) → Bool
  | .httpErr _ _ => false
  | .ok payload => payload.errors.isSome

/-- Does the response body carry a non-empty GraphQL `errors` array? -/
def gqlErrorsNonempty {α : Type} : HttpResp (GqlEnvelope α) → Bool
  | .httpErr _ _ => false
  | .ok payload => !(payload.errors.getD []).isEmpty

/-- Claim C8: for every `pageSize` and `currentPage`, the REST product-list
request built by `fetchProducts` (src/unnamed/part_016) carries exactly the
two pagination parameters and two filter groups (visibility eq '4' and
status eq '1', each with conditionType 'eq'), and the CORS wrapper leaves the
URL unchanged, so the request URL is the endpoint plus exactly these
parameters. -/
theorem fetchProducts_pagination_and_filters (pageSize currentPage : Nat) :
    productsSearchParams pageSize currentPage =
      [("searchCriteria[pageSize]", toString pageSize),
       ("searchCriteria[currentPage]", toString currentPage),
       ("searchCriteria[filterGroups][0][filters][0][field]", "visibility"),
       ("searchCriteria[filterGroups][0][filters][0][value]", "4"),
       ("searchCriteria[filterGroups][0][filters][0][conditionType]", "eq"),
       ("searchCriteria[filterGroups][1][filters][0][field]", "status"),
       ("searchCriteria[filterGroups][1][filters][0][value]", "1"),
       ("searchCriteria[filterGroups][1][filters][0][conditionType]", "eq")]
    ∧ fetchProductsUrl pageSize currentPage =
      restApiEndpoint ++ "/products?" ++
        searchParamsToString (productsSearchParams pageSize currentPage) := by
  constructor
  · rfl
  · rfl

/-- Claim C9 (counterexample): the two GraphQL call sites do not raise under
one uniform condition.  On an ok response whose body carries an empty
`errors` array, the service-module call (`fetchProducts`) returns normally
although the body carries a GraphQL errors array, while `graphqlRequest`
raises a generic error not derived from any reported message; so "every
GraphQL call raises an error exactly when the HTTP response status is not ok
or the response body carries a GraphQL errors array" fails at this input. -/
theorem gql_empty_errors_array_divergence :
    gqlCarriesErrorsArray (HttpResp.ok (⟨some [], some "d"⟩ : GqlEnvelope String)) = true
    ∧ fetchProductsGqlError (HttpResp.ok (⟨some [], some "d"⟩ : GqlEnvelope String)) = none
    ∧ graphqlRequest (HttpResp.ok (⟨some [], some "d"⟩ : GqlEnvelope String)) =
        .error "Unknown GraphQL error" := by
  exact ⟨rfl, rfl, rfl⟩

/-- Claim C9 (amended): `graphqlRequest` raises exactly when the HTTP status
is not ok or the body carries an `errors` array (even an empty one, in which
case the message is the generic 'Unknown GraphQL error'); the service-module
GraphQL calls raise exactly when the status is not ok or the `errors` array
is non-empty; in every raising case the message is built from the HTTP
status or from the reported GraphQL error message(s), with a generic
fallback when no message is reported. -/
theorem graphql_error_surfacing {α : Type} (resp : HttpResp (GqlEnvelope α))
    (status : Nat) (text : String) (d : Option α) :
    exceptIsErr (graphqlRequest resp) = (isHttpRespErr resp || gqlCarriesErrorsArray resp)
    ∧ (fetchProductsGqlError resp).isSome = (isHttpRespErr resp || gqlErrorsNonempty resp)
    ∧ graphqlRequest (HttpResp.httpErr status text : HttpResp (GqlEnvelope α)) =
        .error ("GraphQL request failed: " ++ toString status ++ " " ++ text)
    ∧ graphqlRequest (HttpResp.ok (⟨none, d⟩ : GqlEnvelope α)) = .ok d
    ∧ fetchProductsGqlError (HttpResp.httpErr status text : HttpResp (GqlEnvelope α)) =
        some ("Failed to fetch products: HTTP error! status: " ++ toString status)
    ∧ (∀ m ms, graphqlRequest (HttpResp.ok (⟨some (m :: ms), d⟩ : GqlEnvelope α)) =
        .error (if m = "" then "Unknown GraphQL error" else m))
    ∧ (∀ m ms, fetchProductsGqlError (HttpResp.ok (⟨some (m :: ms), d⟩ : GqlEnvelope α)) =
        some ("Failed to fetch products: " ++ joinSemicolon (m :: ms))) := by
  refine ⟨?_, ?_, rfl, rfl, rfl, fun m ms => rfl, fun m ms => rfl⟩
  · cases resp with
    | httpErr s t => rfl
    | ok payload =>
      cases hp : payload.errors with
      | none => simp [graphqlRequest, exceptIsErr, isHttpRespErr, gqlCarriesErrorsArray, hp]
      | some l =>
        cases l <;>
          simp [graphqlRequest, exceptIsErr, isHttpRespErr, gqlCarriesErrorsArray, hp]
  · cases resp with
    | httpErr s t => rfl
    | ok payload =>
      cases hp : payload.errors with
      | none => simp [fetchProductsGqlError, isHttpRespErr, gqlErrorsNonempty, hp]
      | some l =>
        cases l <;>
          simp [fetchProductsGqlError, isHttpRespErr, gqlErrorsNonempty, hp]

/-! ### localStorage state, cart values, and the scripted network environment
for the guest-cart service (`src/services/magentoApi.js`) -/

/-- A money amount as it appears in cart totals. -/
structure Money where
  value : Int
  currency : String
  deriving DecidableEq

/-- One cart line as the client stores it. -/
structure CartLine where
  sku : String
  quantity : Int
  deriving DecidableEq

/-- A cart snapshot (items plus `prices.grand_total`). -/
structure Cart where
  items : List CartLine
  grand_total : Money
  deriving DecidableEq

/-- The empty cart literal returned by `getCartData`. -/
def emptyCart : Cart :=
  { items := [], grand_total := { value := 0, currency := "USD" } }

/-- Text stored under `cart_data`: either the JSON of a cart value (`none`
standing for JSON `null`) or a string that `JSON.parse` rejects. -/
inductive CartText where
  | valid (c : Option Cart)
  | invalid (s : String)
  deriving DecidableEq

/-- JS truthiness of the stored `cart_data` string (serialized JSON of a
value is never empty; an arbitrary string is falsy only when empty). -/
def cartTextTruthy : CartText → Bool
  | .valid _ => true
  | .invalid s => s ≠ ""

/-- `JSON.parse` on stored cart text; bad text throws a `SyntaxError`. -/
def jsonParseCart : CartText → Except String (Option Cart)
  | .valid c => .ok c
  | .invalid _ => .error "SyntaxError: Unexpected token in JSON"

/-- The browser `localStorage` keys this code uses. -/
structure LocalStore where
  guest_cart_id : Option String
  cart_data : Option CartText
  cart_data_timestamp : Option String
  deriving DecidableEq

/-- A REST `fetch` response (`ok` with parsed JSON body abstracted as a
string, or a non-ok status with the response text). -/
inductive RestResp where
  | ok (body : String)
  | httpErr (status : Nat) (text : String)
  deriving DecidableEq

/-- A GraphQL `GetCart` response: non-ok status, or an envelope with error
messages and `data.cart` (`none` for a missing or null cart). -/
inductive CartFetchResp where
  | httpErr (status : Nat)
  | ok (errors : List String) (cart : Option Cart)
  deriving DecidableEq

/-- Scripted network: the `n`-th call of each kind of request gets the
response at index `n`. -/
structure NetEnv where
  createG : Nat → HttpResp (GqlEnvelope String)
  createR : Nat → RestResp
  add : Nat → RestResp
  cart : Nat → CartFetchResp

/-- Execution state: the localStorage contents, per-request-kind call
counters, and an instrumentation counter of successfully created carts. -/
structure RunState where
  store : LocalStore
  nCreateG : Nat
  nCreateR : Nat
  nAdd : Nat
  nCart : Nat
  created : Nat
  deriving DecidableEq

/-- `createEmptyCart` (GraphQL mutation, `magentoApi.js` lines 1013-1057):
on success stores the cart id in localStorage and returns it; every failure
is rethrown as `Failed to create empty cart: ...`.  The envelope's `dat`
field models `gql.data?.createEmptyCart`. -/
def createEmptyCartRun (env : NetEnv) (w : RunState) : Except String String × RunState :=
  let resp := env.createG w.nCreateG
  let w := { w with nCreateG := w.nCreateG + 1 }
  match resp with
  | .httpErr status _ =>
    (.error ("Failed to create empty cart: HTTP error! status: " ++ toString status), w)
  | .ok gql =>
    match gql.errors with
    | some (m :: ms) =>
      (.error ("Failed to create empty cart: " ++ joinSemicolon (m :: ms)), w)
    | _ =>
      match gql.dat with
      | some id =>
        if id = "" then
          (.error "Failed to create empty cart: No cart ID returned from createEmptyCart mutation", w)
        else
          (.ok id, { w with store := { w.store with guest_cart_id := some id },
                            created := w.created + 1 })
      | none =>
        (.error "Failed to create empty cart: No cart ID returned from createEmptyCart mutation", w)

/-- `createEmptyCart` of the first service version (`magentoApi.js` lines
336-381).  Identical control flow; its missing-id error is thrown inside the
try block, so the catch wraps the prefix a second time. -/
def createEmptyCartV1Run (env : NetEnv) (w : RunState) : Except String String × RunState :=
  let resp := env.createG w.nCreateG
  let w := { w with nCreateG := w.nCreateG + 1 }
  match resp with
  | .httpErr status _ =>
    (.error ("Failed to create empty cart: HTTP error! status: " ++ toString status), w)
  | .ok gql =>
    match gql.errors with
    | some (m :: ms) =>
      (.error ("Failed to create empty cart: " ++ joinSemicolon (m :: ms)), w)
    | _ =>
      match gql.dat with
      | some id =>
        if id = "" then
          (.error "Failed to create empty cart: Failed to create empty cart: No cart ID returned", w)
        else
          (.ok id, { w with store := { w.store with guest_cart_id := some id },
                            created := w.created + 1 })
      | none =>
        (.error "Failed to create empty cart: Failed to create empty cart: No cart ID returned", w)

/-- `createGuestCart` (REST fallback, `magentoApi.js` lines 1063-1088):
stores whatever id the body parses to (no falsiness check) and returns it;
failures become `Failed to create cart: ...`. -/
def createGuestCartRun (env : NetEnv) (w : RunState) : Except String String × RunState :=
  let resp := env.createR w.nCreateR
  let w := { w with nCreateR := w.nCreateR + 1 }
  match resp with
  | .httpErr status _ =>
    (.error ("Failed to create cart: HTTP error! status: " ++ toString status), w)
  | .ok id =>
    (.ok id, { w with store := { w.store with guest_cart_id := some id },
                      created := w.created + 1 })

/-- The creation path of `getGuestCartId` (lines 1097-1113, `useGraphQL`
true): try the GraphQL mutation, fall back to the REST call on any error. -/
def getGuestCartIdCreate (env : NetEnv) (w : RunState) : Except String String × RunState :=
  match createEmptyCartRun env w with
  | (.ok id, w') => (.ok id, w')
  | (.error _, w') => createGuestCartRun env w'

/-- `getGuestCartId` (`magentoApi.js` lines 1095-1116): return the stored
`guest_cart_id` when truthy, otherwise create a cart (GraphQL with REST
fallback). -/
def getGuestCartId (env : NetEnv) (w : RunState) : Except String String × RunState :=
  if jsTruthy w.store.guest_cart_id then
    (.ok (w.store.guest_cart_id.getD ""), w)
  else
    getGuestCartIdCreate env w

/-- `getGuestCartId` of the first service version (`magentoApi.js` lines
389-395): return the stored id when truthy, otherwise `createEmptyCart`
with no fallback. -/
def getGuestCartIdV1 (env : NetEnv) (w : RunState) : Except String String × RunState :=
  if jsTruthy w.store.guest_cart_id then
    (.ok (w.store.guest_cart_id.getD ""), w)
  else
    createEmptyCartV1Run env w

/-- The POST of one add-to-cart attempt (`magentoApi.js` lines 1137-1152):
ok returns the parsed body; non-ok throws with the status and response
text in the message. -/
def addItemPost (env : NetEnv) (w : RunState) : Except String String × RunState :=
  let resp := env.add w.nAdd
  let w := { w with nAdd := w.nAdd + 1 }
  match resp with
  | .ok body => (.ok body, w)
  | .httpErr status text =>
    (.error ("HTTP error! status: " ++ toString status ++ ", message: " ++ text), w)

/-- `addToGuestCart` (`magentoApi.js` lines 1124-1162).  One attempt resolves
the cart id (possibly creating a cart) and posts the item; the catch block
inspects the error message: when it contains 'No such entity' it removes the
stored `guest_cart_id` and recursively calls `addToGuestCart` again,
otherwise it rethrows `Failed to add item to cart: ...`.  The recursion has
no bound in the source; `fuel` caps it in the model and `none` models a run
that exceeds the cap. -/
def addToGuestCartRun (env : NetEnv) : Nat → RunState → Option (Except String String × RunState)
  | 0, _ => none
  | fuel + 1, w =>
    let attempt :=
      match getGuestCartId env w with
      | (.error e, w') => (Except.error e, w')
      | (.ok _, w') => addItemPost env w'
    match attempt with
    | (.ok body, w') => some (.ok body, w')
    | (.error msg, w') =>
      if jsIncludes msg "No such entity" then
        addToGuestCartRun env fuel { w' with store := { w'.store with guest_cart_id := none } }
      else
        some (.error ("Failed to add item to cart: " ++ msg), w')

/-- The cart message state set by `handleAddToCart`
(`ProductDetailPage.js` lines 36-76). -/
structure CartMessage where
  type : String
  text : String
  deriving DecidableEq

/-- `handleAddToCart` for a simple product (`ProductDetailPage.js` lines
55-75): awaits `addToGuestCart` and turns the outcome into a user-facing
cart message. -/
def handleAddToCartSimple (productName : String) (env : NetEnv) (fuel : Nat) (w : RunState) :
    Option (CartMessage × RunState) :=
  match addToGuestCartRun env fuel w with
  | none => none
  | some (.ok _, w') =>
    some ({ type := "success", text := productName ++ " has been added to your cart!" }, w')
  | some (.error msg, w') =>
    some ({ type := "error", text := "Failed to add to cart: " ++ msg }, w')

/-- Helper: `getGuestCartId` with a truthy stored id returns it and leaves
the run state untouched. -/
theorem getGuestCartId_cached (env : NetEnv) (w : RunState) (c : String)
    (h : w.store.guest_cart_id = some c) (hc : c ≠ "") :
    getGuestCartId env w = (.ok c, w) := by
  simp [getGuestCartId, jsTruthy, h, hc]

/-- Helper: `getGuestCartIdV1` with a truthy stored id returns it unchanged. -/
theorem getGuestCartIdV1_cached (env : NetEnv) (w : RunState) (c : String)
    (h : w.store.guest_cart_id = some c) (hc : c ≠ "") :
    getGuestCartIdV1 env w = (.ok c, w) := by
  simp [getGuestCartIdV1, jsTruthy, h, hc]

/-- The run state after a successful GraphQL cart creation. -/
def afterCreateG (w : RunState) (id : String) : RunState :=
  { w with nCreateG := w.nCreateG + 1,
           store := { w.store with guest_cart_id := some id },
           created := w.created + 1 }

/-- Helper: with no stored id and a successful GraphQL mutation,
`getGuestCartId` creates a cart, stores the id, and returns it. -/
theorem getGuestCartId_absent_creates (env : NetEnv) (w : RunState) (id : String)
    (h : w.store.guest_cart_id = none)
    (hcr : env.createG w.nCreateG = .ok { errors := none, dat := some id })
    (hid : id ≠ "") :
    getGuestCartId env w = (.ok id, afterCreateG w id) := by
  simp [getGuestCartId, jsTruthy, h, getGuestCartIdCreate, createEmptyCartRun, hcr, hid,
    afterCreateG]

/-- Helper: with no stored id and a successful GraphQL mutation,
`getGuestCartIdV1` creates a cart, stores the id, and returns it. -/
theorem getGuestCartIdV1_absent_creates (env : NetEnv) (w : RunState) (id : String)
    (h : w.store.guest_cart_id = none)
    (hcr : env.createG w.nCreateG = .ok { errors := none, dat := some id })
    (hid : id ≠ "") :
    getGuestCartIdV1 env w = (.ok id, afterCreateG w id) := by
  simp [getGuestCartIdV1, jsTruthy, h, createEmptyCartV1Run, hcr, hid, afterCreateG]

/-- Claim C2: `getGuestCartId` (both service versions) is
create-cart-if-absent with localStorage-backed memoization: with a truthy
stored `guest_cart_id` it returns that id with no network call and no state
change; only with no stored id does it invoke cart creation, and then it
stores the returned id and returns it. -/
theorem getGuestCartId_memoization (env : NetEnv) (w : RunState) (c id : String)
    (hc : c ≠ "") (hid : id ≠ "") :
    (w.store.guest_cart_id = some c →
      getGuestCartId env w = (.ok c, w) ∧ getGuestCartIdV1 env w = (.ok c, w))
    ∧ (w.store.guest_cart_id = none →
        env.createG w.nCreateG = .ok { errors := none, dat := some id } →
        getGuestCartId env w = (.ok id, afterCreateG w id)
        ∧ getGuestCartIdV1 env w = (.ok id, afterCreateG w id)
        ∧ (afterCreateG w id).store.guest_cart_id = some id
        ∧ (afterCreateG w id).created = w.created + 1) := by
  constructor
  · intro h
    exact ⟨getGuestCartId_cached env w c h hc, getGuestCartIdV1_cached env w c h hc⟩
  · intro h hcr
    exact ⟨getGuestCartId_absent_creates env w id h hcr hid,
      getGuestCartIdV1_absent_creates env w id h hcr hid, rfl, rfl⟩

/-- Witness for `getGuestCartId_memoization` at a concrete cached state and a
concrete creation environment. -/
theorem getGuestCartId_memoization_witness :
    (({ store := { guest_cart_id := some "abc", cart_data := none, cart_data_timestamp := none },
        nCreateG := 0, nCreateR := 0, nAdd := 0, nCart := 0, created := 0 } : RunState).store.guest_cart_id
        = some "abc" →
      getGuestCartId
          { createG := fun _ => .ok { errors := none, dat := some "fresh" },
            createR := fun _ => .ok "r", add := fun _ => .ok "a", cart := fun _ => .httpErr 500 }
          { store := { guest_cart_id := some "abc", cart_data := none, cart_data_timestamp := none },
            nCreateG := 0, nCreateR := 0, nAdd := 0, nCart := 0, created := 0 } =
        (.ok "abc",
          { store := { guest_cart_id := some "abc", cart_data := none, cart_data_timestamp := none },
            nCreateG := 0, nCreateR := 0, nAdd := 0, nCart := 0, created := 0 })
      ∧ getGuestCartIdV1
          { createG := fun _ => .ok { errors := none, dat := some "fresh" },
            createR := fun _ => .ok "r", add := fun _ => .ok "a", cart := fun _ => .httpErr 500 }
          { store := { guest_cart_id := some "abc", cart_data := none, cart_data_timestamp := none },
            nCreateG := 0, nCreateR := 0, nAdd := 0, nCart := 0, created := 0 } =
        (.ok "abc",
          { store := { guest_cart_id := some "abc", cart_data := none, cart_data_timestamp := none },
            nCreateG := 0, nCreateR := 0, nAdd := 0, nCart := 0, created := 0 }))
    ∧ (({ store := { guest_cart_id := some "abc", cart_data := none, cart_data_timestamp := none },
          nCreateG := 0, nCreateR := 0, nAdd := 0, nCart := 0, created := 0 } : RunState).store.guest_cart_id
          = none →
        ({ createG := fun _ => .ok { errors := none, dat := some "fresh" },
           createR := fun _ => .ok "r", add := fun _ => .ok "a", cart := fun _ => .httpErr 500 } : NetEnv).createG 0
          = .ok { errors := none, dat := some "fresh" } →
        getGuestCartId
            { createG := fun _ => .ok { errors := none, dat := some "fresh" },
              createR := fun _ => .ok "r", add := fun _ => .ok "a", cart := fun _ => .httpErr 500 }
            { store := { guest_cart_id := some "abc", cart_data := none, cart_data_timestamp := none },
              nCreateG := 0, nCreateR := 0, nAdd := 0, nCart := 0, created := 0 } =
          (.ok "fresh",
            afterCreateG
              { store := { guest_cart_id := some "abc", cart_data := none, cart_data_timestamp := none },
                nCreateG := 0, nCreateR := 0, nAdd := 0, nCart := 0, created := 0 } "fresh")
        ∧ getGuestCartIdV1
            { createG := fun _ => .ok { errors := none, dat := some "fresh" },
              createR := fun _ => .ok "r", add := fun _ => .ok "a", cart := fun _ => .httpErr 500 }
            { store := { guest_cart_id := some "abc", cart_data := none, cart_data_timestamp := none },
              nCreateG := 0, nCreateR := 0, nAdd := 0, nCart := 0, created := 0 } =
          (.ok "fresh",
            afterCreateG
              { store := { guest_cart_id := some "abc", cart_data := none, cart_data_timestamp := none },
                nCreateG := 0, nCreateR := 0, nAdd := 0, nCart := 0, created := 0 } "fresh")
        ∧ (afterCreateG
              { store := { guest_cart_id := some "abc", cart_data := none, cart_data_timestamp := none },
                nCreateG := 0, nCreateR := 0, nAdd := 0, nCart := 0, created := 0 } "fresh").store.guest_cart_id
            = some "fresh"
        ∧ (afterCreateG
              { store := { guest_cart_id := some "abc", cart_data := none, cart_data_timestamp := none },
                nCreateG := 0, nCreateR := 0, nAdd := 0, nCart := 0, created := 0 } "fresh").created = 0 + 1) :=
  getGuestCartId_memoization
    { createG := fun _ => .ok { errors := none, dat := some "fresh" },
      createR := fun _ => .ok "r", add := fun _ => .ok "a", cart := fun _ => .httpErr 500 }
    { store := { guest_cart_id := some "abc", cart_data := none, cart_data_timestamp := none },
      nCreateG := 0, nCreateR := 0, nAdd := 0, nCart := 0, created := 0 }
    "abc" "fresh" (by decide) (by decide)

/-- Claim C3: an add-to-cart failure whose message does not contain 'No such
entity' is terminal: with a truthy stored `guest_cart_id`, the stored id is
left unchanged, exactly one POST is issued (no retry), no cart is created,
the error is rethrown as `Failed to add item to cart: ...`, and
`handleAddToCart` surfaces it as a user-facing error message. -/
theorem addToGuestCart_terminal_failure (env : NetEnv) (w : RunState) (fuel : Nat)
    (c0 : String) (s0 : Nat) (t0 : String) (name : String)
    (hid : w.store.guest_cart_id = some c0) (hc0 : c0 ≠ "")
    (hfail : env.add w.nAdd = .httpErr s0 t0)
    (hclean : jsIncludes ("HTTP error! status: " ++ toString s0 ++ ", message: " ++ t0)
      "No such entity" = false) :
    addToGuestCartRun env (fuel + 1) w =
      some (.error ("Failed to add item to cart: " ++
          ("HTTP error! status: " ++ toString s0 ++ ", message: " ++ t0)),
        { w with nAdd := w.nAdd + 1 })
    ∧ ({ w with nAdd := w.nAdd + 1 } : RunState).store = w.store
    ∧ ({ w with nAdd := w.nAdd + 1 } : RunState).created = w.created
    ∧ handleAddToCartSimple name env (fuel + 1) w =
        some ({ type := "error",
                text := "Failed to add to cart: " ++ ("Failed to add item to cart: " ++
                  ("HTTP error! status: " ++ toString s0 ++ ", message: " ++ t0)) },
          { w with nAdd := w.nAdd + 1 }) := by
  have hstep :
      addToGuestCartRun env (fuel + 1) w =
        some (.error ("Failed to add item to cart: " ++
            ("HTTP error! status: " ++ toString s0 ++ ", message: " ++ t0)),
          { w with nAdd := w.nAdd + 1 }) := by
    simp only [addToGuestCartRun, getGuestCartId_cached env w c0 hid hc0, addItemPost, hfail,
      hclean, Bool.false_eq_true, if_false]
  refine ⟨hstep, rfl, rfl, ?_⟩
  simp only [handleAddToCartSimple, hstep]

/-- Witness for `addToGuestCart_terminal_failure`: a 400 response whose text
does not mention 'No such entity'. -/
theorem addToGuestCart_terminal_failure_witness :
    addToGuestCartRun
        { createG := fun _ => .ok { errors := none, dat := some "fresh" },
          createR := fun _ => .ok "r",
          add := fun _ => .httpErr 400 "The requested qty is not available",
          cart := fun _ => .httpErr 500 }
        (3 + 1)
        { store := { guest_cart_id := some "c0", cart_data := none, cart_data_timestamp := none },
          nCreateG := 0, nCreateR := 0, nAdd := 0, nCart := 0, created := 0 } =
      some (.error ("Failed to add item to cart: " ++
          ("HTTP error! status: " ++ toString 400 ++ ", message: " ++ "The requested qty is not available")),
        { ({ store := { guest_cart_id := some "c0", cart_data := none, cart_data_timestamp := none },
             nCreateG := 0, nCreateR := 0, nAdd := 0, nCart := 0, created := 0 } : RunState) with
          nAdd := 0 + 1 })
    ∧ ({ ({ store := { guest_cart_id := some "c0", cart_data := none, cart_data_timestamp := none },
            nCreateG := 0, nCreateR := 0, nAdd := 0, nCart := 0, created := 0 } : RunState) with
         nAdd := 0 + 1 } : RunState).store =
        ({ store := { guest_cart_id := some "c0", cart_data := none, cart_data_timestamp := none },
           nCreateG := 0, nCreateR := 0, nAdd := 0, nCart := 0, created := 0 } : RunState).store
    ∧ ({ ({ store := { guest_cart_id := some "c0", cart_data := none, cart_data_timestamp := none },
            nCreateG := 0, nCreateR := 0, nAdd := 0, nCart := 0, created := 0 } : RunState) with
         nAdd := 0 + 1 } : RunState).created = 0
    ∧ handleAddToCartSimple "Shirt"
        { createG := fun _ => .ok { errors := none, dat := some "fresh" },
          createR := fun _ => .ok "r",
          add := fun _ => .httpErr 400 "The requested qty is not available",
          cart := fun _ => .httpErr 500 }
        (3 + 1)
        { store := { guest_cart_id := some "c0", cart_data := none, cart_data_timestamp := none },
          nCreateG := 0, nCreateR := 0, nAdd := 0, nCart := 0, created := 0 } =
        some ({ type := "error",
                text := "Failed to add to cart: " ++ ("Failed to add item to cart: " ++
                  ("HTTP error! status: " ++ toString 400 ++ ", message: " ++ "The requested qty is not available")) },
          { ({ store := { guest_cart_id := some "c0", cart_data := none, cart_data_timestamp := none },
               nCreateG := 0, nCreateR := 0, nAdd := 0, nCart := 0, created := 0 } : RunState) with
            nAdd := 0 + 1 }) :=
  addToGuestCart_terminal_failure
    { createG := fun _ => .ok { errors := none, dat := some "fresh" },
      createR := fun _ => .ok "r",
      add := fun _ => .httpErr 400 "The requested qty is not available",
      cart := fun _ => .httpErr 500 }
    { store := { guest_cart_id := some "c0", cart_data := none, cart_data_timestamp := none },
      nCreateG := 0, nCreateR := 0, nAdd := 0, nCart := 0, created := 0 }
    3 "c0" 400 "The requested qty is not available" "Shirt" rfl (by decide) rfl (by decide)

/-- The add-to-cart outcome (`Failed to add item to cart: ...` wrapping for a
non-ok POST) as a function of the POST response. -/
def addPostResult : RestResp → Except String String
  | .ok body => .ok body
  | .httpErr status text =>
    .error ("Failed to add item to cart: " ++
      ("HTTP error! status: " ++ toString status ++ ", message: " ++ text))

/-- A POST response whose outcome does not report 'No such entity'. -/
def addOutcomeClean : RestResp → Bool
  | .ok _ => true
  | .httpErr status text =>
    !jsIncludes ("HTTP error! status: " ++ toString status ++ ", message: " ++ text)
      "No such entity"

/-- Scripted environment in which the POST reports 'No such entity' for the
cached cart id and again for the first re-created cart, and succeeds on the
third attempt; every cart creation succeeds. -/
def envTwoInvalid : NetEnv where
  createG := fun n => if n = 0 then .ok { errors := none, dat := some "c1" }
    else .ok { errors := none, dat := some "c2" }
  createR := fun _ => .ok "r"
  add := fun n =>
    if n = 0 then .httpErr 404 "No such entity with cartId = c0"
    else if n = 1 then .httpErr 404 "No such entity with cartId = c1"
    else .ok "added"
  cart := fun _ => .httpErr 500

/-- Initial state holding a cached cart id. -/
def wCachedC0 : RunState where
  store := { guest_cart_id := some "c0", cart_data := none, cart_data_timestamp := none }
  nCreateG := 0
  nCreateR := 0
  nAdd := 0
  nCart := 0
  created := 0

/-- Claim C1 (counterexample): the retry in `addToGuestCart` is a recursive
call, not a single retry.  In `envTwoInvalid` the run completes successfully
only after TWO cart re-creations (the retried call fails with 'No such
entity' again and re-creates once more), refuting "for every execution, at
most one cart re-creation occurs before the call either succeeds or
fails". -/
theorem addToGuestCart_two_recreations :
    addToGuestCartRun envTwoInvalid 5 wCachedC0 =
      some (.ok "added",
        { store := { guest_cart_id := some "c2", cart_data := none, cart_data_timestamp := none },
          nCreateG := 2, nCreateR := 0, nAdd := 3, nCart := 0, created := 2 }) := by
  rfl

/-- Claim C1 (amended): when the add-to-cart POST fails with a message
containing 'No such entity', `addToGuestCart` discards the stored
`guest_cart_id`, creates a new cart, and retries; when the retried attempt
does not itself fail with a 'No such entity' message, exactly one cart
re-creation occurs and the retried attempt's outcome (success or terminal
wrapped error) is returned. -/
theorem addToGuestCart_single_retry (env : NetEnv) (w : RunState) (fuel : Nat)
    (c0 c1 : String) (s0 : Nat) (t0 : String)
    (hid : w.store.guest_cart_id = some c0) (hc0 : c0 ≠ "")
    (hfail : env.add w.nAdd = .httpErr s0 t0)
    (hmark : jsIncludes ("HTTP error! status: " ++ toString s0 ++ ", message: " ++ t0)
      "No such entity" = true)
    (hcr : env.createG w.nCreateG = .ok { errors := none, dat := some c1 }) (hc1 : c1 ≠ "")
    (hclean : addOutcomeClean (env.add (w.nAdd + 1)) = true) :
    ∃ w' : RunState,
      addToGuestCartRun env (fuel + 2) w = some (addPostResult (env.add (w.nAdd + 1)), w')
      ∧ w'.created = w.created + 1
      ∧ w'.store.guest_cart_id = some c1
      ∧ w'.nAdd = w.nAdd + 2 := by
  have hstep1 :
      addToGuestCartRun env (fuel + 2) w =
        addToGuestCartRun env (fuel + 1)
          { w with nAdd := w.nAdd + 1,
                   store := { w.store with guest_cart_id := none } } := by
    show addToGuestCartRun env (fuel + 1 + 1) w = _
    simp only [addToGuestCartRun, getGuestCartId_cached env w c0 hid hc0, addItemPost, hfail,
      hmark, if_true]
  set wB : RunState :=
    { w with nAdd := w.nAdd + 1, store := { w.store with guest_cart_id := none } } with hwB
  have hidB : wB.store.guest_cart_id = none := rfl
  have hcrB : env.createG wB.nCreateG = .ok { errors := none, dat := some c1 } := hcr
  have hget : getGuestCartId env wB = (.ok c1, afterCreateG wB c1) :=
    getGuestCartId_absent_creates env wB c1 hidB hcrB hc1
  have hnAddB : (afterCreateG wB c1).nAdd = w.nAdd + 1 := rfl
  cases hr : env.add (w.nAdd + 1) with
  | ok body =>
    refine ⟨{ afterCreateG wB c1 with nAdd := w.nAdd + 2 }, ?_, rfl, rfl, rfl⟩
    rw [hstep1]
    simp only [addToGuestCartRun, hget, addItemPost, hnAddB, hr, addPostResult]
  | httpErr s1 t1 =>
    have hcl : jsIncludes ("HTTP error! status: " ++ toString s1 ++ ", message: " ++ t1)
        "No such entity" = false := by
      have := hclean
      rw [hr] at this
      simpa [addOutcomeClean] using this
    refine ⟨{ afterCreateG wB c1 with nAdd := w.nAdd + 2 }, ?_, rfl, rfl, rfl⟩
    rw [hstep1]
    simp only [addToGuestCartRun, hget, addItemPost, hnAddB, hr, hcl, Bool.false_eq_true,
      if_false, addPostResult]

/-- Witness for `addToGuestCart_single_retry`: one 'No such entity' failure,
one successful re-creation, then a successful retry. -/
theorem addToGuestCart_single_retry_witness :
    ∃ w' : RunState,
      addToGuestCartRun
          { createG := fun _ => .ok { errors := none, dat := some "c1" },
            createR := fun _ => .ok "r",
            add := fun n => if n = 0 then .httpErr 404 "No such entity with cartId = c0" else .ok "added",
            cart := fun _ => .httpErr 500 }
          (3 + 2) wCachedC0 =
        some (addPostResult
          (({ createG := fun _ => .ok { errors := none, dat := some "c1" },
              createR := fun _ => .ok "r",
              add := fun n => if n = 0 then .httpErr 404 "No such entity with cartId = c0" else .ok "added",
              cart := fun _ => .httpErr 500 } : NetEnv).add (wCachedC0.nAdd + 1)), w')
      ∧ w'.created = wCachedC0.created + 1
      ∧ w'.store.guest_cart_id = some "c1"
      ∧ w'.nAdd = wCachedC0.nAdd + 2 :=
  addToGuestCart_single_retry
    { createG := fun _ => .ok { errors := none, dat := some "c1" },
      createR := fun _ => .ok "r",
      add := fun n => if n = 0 then .httpErr 404 "No such entity with cartId = c0" else .ok "added",
      cart := fun _ => .httpErr 500 }
    wCachedC0 3 "c0" "c1" 404 "No such entity with cartId = c0"
    rfl (by decide) rfl (by decide) rfl (by decide) (by decide)

/-! ### `getCartData` and its five-minute cache (`magentoApi.js` lines
602-667 `fetchCart`, 673-716 `getCartData`) -/

/-- The freshness test at `magentoApi.js` line 685:
`cacheTimestamp && (now - parseInt(cacheTimestamp)) < fiveMinutes`.
A missing, empty or non-numeric timestamp is never fresh (`NaN`
comparisons are false in JS). -/
def isFreshTimestamp (now : Int) (ts : Option String) : Bool :=
  jsTruthy ts &&
    (match jsParseInt (ts.getD "") with
     | none => false
     | some t => now - t < 300000)

/-- `fetchCart` (GraphQL `GetCart`): non-ok status or a non-empty errors
array throw, wrapped as `Failed to fetch cart: ...`; otherwise returns
`gql.data?.cart || null`. -/
def fetchCartRun (env : NetEnv) (w : RunState) : Except String (Option Cart) × RunState :=
  let resp := env.cart w.nCart
  let w := { w with nCart := w.nCart + 1 }
  match resp with
  | .httpErr status =>
    (.error ("Failed to fetch cart: HTTP error! status: " ++ toString status), w)
  | .ok errs c =>
    match errs with
    | m :: ms => (.error ("Failed to fetch cart: " ++ joinSemicolon (m :: ms)), w)
    | [] => (.ok c, w)

/-- The catch block of `getCartData` (lines 706-715): return the cached
`cart_data` if truthy — re-running `JSON.parse`, whose failure propagates —
otherwise the empty cart. -/
def getCartDataFallback (w : RunState) : Except String (Option Cart) × RunState :=
  match w.store.cart_data with
  | some ct =>
    if cartTextTruthy ct then
      match jsonParseCart ct with
      | .ok c => (.ok c, w)
      | .error e => (.error e, w)
    else (.ok (some emptyCart), w)
  | none => (.ok (some emptyCart), w)

/-- The refetch path of `getCartData` (lines 691-705): with no truthy
`guest_cart_id` return the empty cart; otherwise fetch the cart, store the
snapshot and the current timestamp, and return it; a fetch failure goes to
the catch block. -/
def getCartDataRefetch (now : Int) (env : NetEnv) (w : RunState) :
    Except String (Option Cart) × RunState :=
  if !jsTruthy w.store.guest_cart_id then (.ok (some emptyCart), w)
  else
    match fetchCartRun env w with
    | (.error _, w') => getCartDataFallback w'
    | (.ok c, w') =>
      (.ok c, { w' with store := { w'.store with
          cart_data := some (.valid c),
          cart_data_timestamp := some (toString now) } })

/-- `getCartData` (lines 673-716).  `now` models the single tick of
`Date.now()` observed by the call. -/
def getCartDataRun (now : Int) (env : NetEnv) (w : RunState) :
    Except String (Option Cart) × RunState :=
  match w.store.cart_data with
  | some ct =>
    if cartTextTruthy ct then
      match jsonParseCart ct with
      | .error _ => getCartDataFallback w
      | .ok c =>
        if isFreshTimestamp now w.store.cart_data_timestamp then (.ok c, w)
        else getCartDataRefetch now env w
    else getCartDataRefetch now env w
  | none => getCartDataRefetch now env w

/-- Claim C4: `getCartData` serves the cached snapshot (with no fetch and no
state change) exactly in the fresh-cache case; on a missing or stale cache
it re-fetches when a cart id is stored, overwriting both `cart_data` and
`cart_data_timestamp` with the fresh values, and returns the empty cart with
a zero USD grand total when no cart id is stored. -/
theorem getCartData_freshness_policy (now : Int) (env : NetEnv) (w : RunState)
    (c c' : Option Cart) :
    (w.store.cart_data = some (.valid c) →
      isFreshTimestamp now w.store.cart_data_timestamp = true →
      getCartDataRun now env w = (.ok c, w))
    ∧ ((w.store.cart_data = none ∨
         (w.store.cart_data = some (.valid c) ∧
          isFreshTimestamp now w.store.cart_data_timestamp = false)) →
        jsTruthy w.store.guest_cart_id = true →
        env.cart w.nCart = .ok [] c' →
        getCartDataRun now env w =
          (.ok c', { w with nCart := w.nCart + 1,
                            store := { w.store with
                              cart_data := some (.valid c'),
                              cart_data_timestamp := some (toString now) } }))
    ∧ ((w.store.cart_data = none ∨
         (w.store.cart_data = some (.valid c) ∧
          isFreshTimestamp now w.store.cart_data_timestamp = false)) →
        jsTruthy w.store.guest_cart_id = false →
        getCartDataRun now env w = (.ok (some emptyCart), w)) := by
  refine ⟨?_, ?_, ?_⟩
  · intro hcd hfresh
    simp [getCartDataRun, hcd, cartTextTruthy, jsonParseCart, hfresh]
  · rintro (hcd | ⟨hcd, hstale⟩) htr hfetch
    · simp [getCartDataRun, hcd, getCartDataRefetch, htr, fetchCartRun, hfetch]
    · simp [getCartDataRun, hcd, cartTextTruthy, jsonParseCart, hstale,
        getCartDataRefetch, htr, fetchCartRun, hfetch]
  · rintro (hcd | ⟨hcd, hstale⟩) htr
    · simp [getCartDataRun, hcd, getCartDataRefetch, htr]
    · simp [getCartDataRun, hcd, cartTextTruthy, jsonParseCart, hstale,
        getCartDataRefetch, htr]

/-- A concrete one-line cart snapshot used by witnesses. -/
def cartS1 : Cart :=
  { items := [{ sku := "s1", quantity := 2 }],
    grand_total := { value := 5, currency := "USD" } }

/-- An environment whose every response is a 500, for runs that must not
touch the network. -/
def envDead : NetEnv where
  createG := fun _ => .httpErr 500 ""
  createR := fun _ => .httpErr 500 ""
  add := fun _ => .httpErr 500 ""
  cart := fun _ => .httpErr 500

/-- A state holding a cart id and a fresh cached snapshot (timestamp 100,
observed now 200). -/
def wFreshCache : RunState where
  store :=
    { guest_cart_id := some "c0",
      cart_data := some (.valid (some cartS1)),
      cart_data_timestamp := some "100" }
  nCreateG := 0
  nCreateR := 0
  nAdd := 0
  nCart := 0
  created := 0

/-- Witness for `getCartData_freshness_policy`: a fresh cached snapshot is
served unchanged without any fetch. -/
theorem getCartData_freshness_policy_witness :
    getCartDataRun 200 envDead wFreshCache = (.ok (some cartS1), wFreshCache) :=
  (getCartData_freshness_policy 200 envDead wFreshCache (some cartS1) none).1 rfl (by decide)

/-- A state whose cached `cart_data` is a non-empty string that is not valid
JSON. -/
def wCorruptCache : RunState where
  store :=
    { guest_cart_id := some "c0",
      cart_data := some (.invalid "corrupt"),
      cart_data_timestamp := some "0" }
  nCreateG := 0
  nCreateR := 0
  nAdd := 0
  nCart := 0
  created := 0

/-- Claim C10 (counterexample): `getCartData` is not error-free.  With a
truthy cached `cart_data` string that `JSON.parse` rejects, the parse error
thrown in the try block is caught, but the catch block re-parses the same
cached string, and that second `JSON.parse` failure propagates to the
caller instead of returning the cached snapshot or the empty cart. -/
theorem getCartData_corrupt_cache_error :
    getCartDataRun 0 envDead wCorruptCache =
      (.error "SyntaxError: Unexpected token in JSON", wCorruptCache) := by
  rfl

/-- Is the cached `cart_data` entry absent, falsy, or parseable JSON (the
corrupt non-empty case excluded)? -/
def cartCacheWellFormed (st : LocalStore) : Bool :=
  match st.cart_data with
  | some (.invalid s) => s = ""
  | _ => true

/-- Helper: the catch block of `getCartData` does not throw when the cached
`cart_data` is well formed. -/
theorem getCartDataFallback_no_error (w : RunState)
    (h : cartCacheWellFormed w.store = true) :
    exceptIsErr (getCartDataFallback w).1 = false := by
  have h' := h
  unfold cartCacheWellFormed at h'
  rcases hw : w.store.cart_data with _ | ct
  · simp [getCartDataFallback, hw, exceptIsErr]
  · cases ct with
    | valid c => simp [getCartDataFallback, hw, cartTextTruthy, jsonParseCart, exceptIsErr]
    | invalid s =>
      rw [hw] at h'
      have hs : s = "" := by simpa using h'
      simp [getCartDataFallback, hw, cartTextTruthy, hs, exceptIsErr]

/-- Helper: the refetch path of `getCartData` does not throw when the cached
`cart_data` is well formed. -/
theorem getCartDataRefetch_no_error (now : Int) (env : NetEnv) (w : RunState)
    (h : cartCacheWellFormed w.store = true) :
    exceptIsErr (getCartDataRefetch now env w).1 = false := by
  cases hid : jsTruthy w.store.guest_cart_id with
  | false => simp [getCartDataRefetch, hid, exceptIsErr]
  | true =>
    cases hr : env.cart w.nCart with
    | httpErr st =>
      simp only [getCartDataRefetch, hid, Bool.not_true, Bool.false_eq_true, if_false,
        fetchCartRun, hr]
      exact getCartDataFallback_no_error _ h
    | ok errs c =>
      cases errs with
      | nil => simp [getCartDataRefetch, hid, fetchCartRun, hr, exceptIsErr]
      | cons m ms =>
        simp only [getCartDataRefetch, hid, Bool.not_true, Bool.false_eq_true, if_false,
          fetchCartRun, hr]
        exact getCartDataFallback_no_error _ h

/-- Claim C10 (amended): `getCartData` propagates an error to the caller
only when the cached `cart_data` is a truthy string that is not valid JSON;
whenever the cache entry is absent, falsy, or parseable, every internal
failure is contained: in particular, on a cart-fetch failure it returns the
parsed cached snapshot when one exists (even stale), and the empty
zero-USD cart when none does. -/
theorem getCartData_error_containment (now : Int) (env : NetEnv) (w : RunState)
    (h : cartCacheWellFormed w.store = true) :
    exceptIsErr (getCartDataRun now env w).1 = false
    ∧ (∀ st c, env.cart w.nCart = .httpErr st →
        w.store.cart_data = some (.valid c) →
        isFreshTimestamp now w.store.cart_data_timestamp = false →
        jsTruthy w.store.guest_cart_id = true →
        getCartDataRun now env w = (.ok c, { w with nCart := w.nCart + 1 }))
    ∧ (∀ st, env.cart w.nCart = .httpErr st →
        w.store.cart_data = none →
        jsTruthy w.store.guest_cart_id = true →
        getCartDataRun now env w = (.ok (some emptyCart), { w with nCart := w.nCart + 1 })) := by
  refine ⟨?_, ?_, ?_⟩
  · have h' := h
    unfold cartCacheWellFormed at h'
    rcases hcd : w.store.cart_data with _ | ct
    · simp only [getCartDataRun, hcd]
      exact getCartDataRefetch_no_error now env w h
    · cases ct with
      | valid c =>
        simp only [getCartDataRun, hcd, cartTextTruthy, jsonParseCart]
        cases hf : isFreshTimestamp now w.store.cart_data_timestamp with
        | true => simp [hf, exceptIsErr]
        | false =>
          simp only [hf, Bool.false_eq_true, if_false]
          exact getCartDataRefetch_no_error now env w h
      | invalid s =>
        rw [hcd] at h'
        have hs : s = "" := by simpa using h'
        have hcc : cartTextTruthy (.invalid s) = false := by
          rw [hs]
          decide
        simp only [getCartDataRun, hcd, hcc, Bool.false_eq_true, if_false]
        exact getCartDataRefetch_no_error now env w h
  · intro st c hr hcd hstale htr
    simp [getCartDataRun, hcd, cartTextTruthy, jsonParseCart, hstale, getCartDataRefetch,
      htr, fetchCartRun, hr, getCartDataFallback]
  · intro st hr hcd htr
    simp [getCartDataRun, hcd, getCartDataRefetch, htr, fetchCartRun, hr, getCartDataFallback]

/-- Witness for `getCartData_error_containment`: with a stale valid cache
and a failing cart fetch, the stale snapshot is returned and no error
escapes. -/
theorem getCartData_error_containment_witness :
    getCartDataRun 9999999 envDead wFreshCache =
      (.ok (some cartS1), { wFreshCache with nCart := wFreshCache.nCart + 1 }) :=
  ((getCartData_error_containment 9999999 envDead wFreshCache (by decide)).2.1)
    500 (some cartS1) rfl rfl (by decide) (by decide)

/-! ### Configurable-product variant resolution
(`ProductDetailPage.js` lines 130-154 `findMatchingVariant`, 310-316 the
add-to-cart disabled predicate; second version lines 426-440
`isConfigurableProduct` / `canAddToCart`) -/

/-- One configurable option of a product (only the fields
`findMatchingVariant` reads). -/
structure CfgOption where
  id : Nat
  attribute_code : String
  deriving DecidableEq

/-- One entry of a variant's attribute list. -/
structure VariantAttr where
  code : String
  value_index : Int
  deriving DecidableEq

/-- One product variant. -/
structure Variant where
  attributes : List VariantAttr
  deriving DecidableEq

/-- A configurable product as `findMatchingVariant` sees it. -/
structure CfgProduct where
  configurable_options : List CfgOption
  variants : List Variant
  deriving DecidableEq

/-- The `selectedByCode` object built at lines 136-141: for each option with
a truthy `attribute_code` and a non-null selection (keyed by option id), the
pair (code, selected value); a later option with the same code overwrites an
earlier one. -/
def selectedByCodePairs (options : List CfgOption) (selections : Nat → Option Int) :
    List (String × Int) :=
  options.foldl
    (fun acc opt =>
      if opt.attribute_code ≠ "" then
        match selections opt.id with
        | some v => acc ++ [(opt.attribute_code, v)]
        | none => acc
      else acc)
    []

/-- Property lookup on the `selectedByCode` object (last write wins). -/
def selectedByCode (options : List CfgOption) (selections : Nat → Option Int)
    (code : String) : Option Int :=
  ((selectedByCodePairs options selections).reverse.find? (fun p => p.1 == code)).map
    (fun p => p.2)

/-- `requiredCodes` at line 143: the truthy attribute codes of the options
(`.filter(Boolean)` drops empty strings). -/
def requiredCodes (options : List CfgOption) : List String :=
  (options.map (fun o => o.attribute_code)).filter (fun c => c ≠ "")

/-- The predicate passed to `variants.find` at lines 148-153: for every
required code, the first attribute entry with that code exists and its
`value_index` equals the selected value. -/
def variantMatches (options : List CfgOption) (selections : Nat → Option Int)
    (v : Variant) : Bool :=
  (requiredCodes options).all (fun code =>
    match v.attributes.find? (fun a => a.code == code) with
    | some a =>
      match selectedByCode options selections code with
      | some x => a.value_index == x
      | none => false
    | none => false)

/-- `findMatchingVariant` (`ProductDetailPage.js` lines 130-154). -/
def findMatchingVariant (prod : CfgProduct) (selections : Nat → Option Int) : Option Variant :=
  if prod.configurable_options.isEmpty || prod.variants.isEmpty then none
  else if !((requiredCodes prod.configurable_options).all
      (fun code => (selectedByCode prod.configurable_options selections code).isSome)) then
    none
  else prod.variants.find? (variantMatches prod.configurable_options selections)

/-- The claim's reading of a match: the variant's attribute list CONTAINS an
entry for every required code whose `value_index` equals the selected
value. -/
def claimMatches (options : List CfgOption) (selections : Nat → Option Int)
    (v : Variant) : Prop :=
  ∀ code ∈ requiredCodes options,
    ∃ a ∈ v.attributes, a.code = code ∧
      selectedByCode options selections code = some a.value_index

/-- Helper: on an attribute list with no duplicate codes, the first-entry
lookup used by the code agrees with "contains an entry". -/
theorem attrLookup_iff (l : List VariantAttr)
    (hl : (l.map (fun a => a.code)).Nodup) (code : String) (x : Int) :
    ((match l.find? (fun a => a.code == code) with
      | some a => a.value_index == x
      | none => false) = true)
    ↔ ∃ a ∈ l, a.code = code ∧ a.value_index = x := by
  induction l with
  | nil => simp
  | cons b t ih =>
    rw [List.map_cons, List.nodup_cons] at hl
    by_cases hb : b.code = code
    · have hfind : (b :: t).find? (fun a => a.code == code) = some b := by
        simp [List.find?, hb]
      rw [hfind]
      constructor
      · intro hval
        exact ⟨b, List.mem_cons_self b t, hb, by simpa using hval⟩
      · rintro ⟨a, ha, hac, hav⟩
        rcases List.mem_cons.mp ha with rfl | hat
        · simpa using hav
        · exfalso
          apply hl.1
          rw [hb, ← hac]
          exact List.mem_map_of_mem (fun a => a.code) hat
    · have hbeq : (b.code == code) = false := beq_eq_false_iff_ne.mpr hb
      have hfind : (b :: t).find? (fun a => a.code == code) = t.find? (fun a => a.code == code) := by
        simp [List.find?, hbeq]
      rw [hfind, ih hl.2]
      constructor
      · rintro ⟨a, ha, hac, hav⟩
        exact ⟨a, List.mem_cons_of_mem b ha, hac, hav⟩
      · rintro ⟨a, ha, hac, hav⟩
        rcases List.mem_cons.mp ha with rfl | hat
        · exact absurd hac hb
        · exact ⟨a, hat, hac, hav⟩

/-- Helper: on variants whose attribute codes have no duplicates, the code's
match predicate coincides with the claim's "contains an entry" reading. -/
theorem variantMatches_iff (options : List CfgOption) (selections : Nat → Option Int)
    (v : Variant) (hv : (v.attributes.map (fun a => a.code)).Nodup) :
    variantMatches options selections v = true ↔ claimMatches options selections v := by
  unfold variantMatches claimMatches
  rw [List.all_eq_true]
  apply forall_congr'
  intro code
  apply imp_congr_right
  intro _
  cases hsel : selectedByCode options selections code with
  | none =>
    simp only [hsel]
    constructor
    · intro hfalse
      exfalso
      rcases hf : v.attributes.find? (fun a => a.code == code) with _ | a <;>
        rw [hf] at hfalse <;> simp at hfalse
    · rintro ⟨a, _, _, hav⟩
      cases hav
  | some x =>
    simp only [hsel]
    rw [attrLookup_iff v.attributes hv code x]
    constructor
    · rintro ⟨a, ha, hac, hav⟩
      exact ⟨a, ha, hac, by rw [hav]⟩
    · rintro ⟨a, ha, hac, hav⟩
      exact ⟨a, ha, hac, by injection hav with h; exact h.symm⟩

/-- Helper: a non-nil list is not `isEmpty`. -/
theorem isEmpty_false_of_ne_nil {α : Type} (l : List α) (h : l ≠ []) : l.isEmpty = false := by
  cases l with
  | nil => exact absurd rfl h
  | cons a t => rfl

/-- Claim C6: for a configurable product (a non-empty option list) whose
variants list each attribute code at most once, `findMatchingVariant`
returns `null` whenever some required attribute code has no selected value;
any returned variant is one of the product's variants carrying, for every
required code, an attribute entry whose `value_index` equals the selected
value; and once every required code is selected, a variant is returned
exactly when such a matching variant exists. -/
theorem findMatchingVariant_characterization (prod : CfgProduct)
    (selections : Nat → Option Int)
    (hopts : prod.configurable_options ≠ [])
    (hattrs : ∀ v ∈ prod.variants, (v.attributes.map (fun a => a.code)).Nodup) :
    ((∃ code ∈ requiredCodes prod.configurable_options,
        selectedByCode prod.configurable_options selections code = none) →
      findMatchingVariant prod selections = none)
    ∧ (∀ v, findMatchingVariant prod selections = some v →
        v ∈ prod.variants ∧ claimMatches prod.configurable_options selections v)
    ∧ ((∀ code ∈ requiredCodes prod.configurable_options,
          (selectedByCode prod.configurable_options selections code).isSome = true) →
        ((∃ v ∈ prod.variants, claimMatches prod.configurable_options selections v) ↔
          ∃ v, findMatchingVariant prod selections = some v)) := by
  have hpart2 : ∀ v, findMatchingVariant prod selections = some v →
      v ∈ prod.variants ∧ claimMatches prod.configurable_options selections v := by
    intro v hfv
    unfold findMatchingVariant at hfv
    cases hempty : (prod.configurable_options.isEmpty || prod.variants.isEmpty) with
    | true => rw [hempty] at hfv; simp at hfv
    | false =>
      rw [hempty] at hfv
      cases hall : (requiredCodes prod.configurable_options).all
          (fun code => (selectedByCode prod.configurable_options selections code).isSome) with
      | false => rw [hall] at hfv; simp at hfv
      | true =>
        rw [hall] at hfv
        simp only [Bool.not_true, Bool.false_eq_true, if_false] at hfv
        have hmem := List.mem_of_find?_eq_some hfv
        have hpred := List.find?_some hfv
        exact ⟨hmem,
          (variantMatches_iff prod.configurable_options selections v (hattrs v hmem)).mp hpred⟩
  refine ⟨?_, hpart2, ?_⟩
  · rintro ⟨code, hcmem, hcnone⟩
    unfold findMatchingVariant
    cases hempty : (prod.configurable_options.isEmpty || prod.variants.isEmpty) with
    | true => simp [hempty]
    | false =>
      cases hall : (requiredCodes prod.configurable_options).all
          (fun code => (selectedByCode prod.configurable_options selections code).isSome) with
      | false => simp [hempty, hall]
      | true =>
        exfalso
        have h := List.all_eq_true.mp hall code hcmem
        rw [hcnone] at h
        exact absurd h (by simp)
  · intro hsel
    constructor
    · rintro ⟨v, hvmem, hvm⟩
      have hvb : variantMatches prod.configurable_options selections v = true :=
        (variantMatches_iff prod.configurable_options selections v (hattrs v hvmem)).mpr hvm
      have hfind : (prod.variants.find?
          (variantMatches prod.configurable_options selections)).isSome := by
        rw [List.find?_isSome]
        exact ⟨v, hvmem, hvb⟩
      rcases Option.isSome_iff_exists.mp hfind with ⟨u, hu⟩
      refine ⟨u, ?_⟩
      unfold findMatchingVariant
      have h1 : prod.configurable_options.isEmpty = false :=
        isEmpty_false_of_ne_nil _ hopts
      have h2 : prod.variants.isEmpty = false :=
        isEmpty_false_of_ne_nil _ (List.ne_nil_of_mem hvmem)
      have hall : (requiredCodes prod.configurable_options).all
          (fun code => (selectedByCode prod.configurable_options selections code).isSome) = true :=
        List.all_eq_true.mpr hsel
      rw [h1, h2, hall]
      simpa using hu
    · rintro ⟨v, hv⟩
      rcases hpart2 v hv with ⟨hm, hc⟩
      exact ⟨v, hm, hc⟩

/-- A concrete two-option configurable product with two variants. -/
def prodTwoOpt : CfgProduct :=
  { configurable_options := [{ id := 1, attribute_code := "color" },
                             { id := 2, attribute_code := "size" }],
    variants := [{ attributes := [{ code := "color", value_index := 10 },
                                  { code := "size", value_index := 20 }] },
                 { attributes := [{ code := "color", value_index := 11 },
                                  { code := "size", value_index := 20 }] }] }

/-- A full selection for `prodTwoOpt` (color 11, size 20). -/
def selTwoOpt : Nat → Option Int :=
  fun i => if i = 1 then some 11 else if i = 2 then some 20 else none

/-- Witness for `findMatchingVariant_characterization` at `prodTwoOpt` and
the full selection `selTwoOpt`. -/
theorem findMatchingVariant_characterization_witness :
    ((∃ code ∈ requiredCodes prodTwoOpt.configurable_options,
        selectedByCode prodTwoOpt.configurable_options selTwoOpt code = none) →
      findMatchingVariant prodTwoOpt selTwoOpt = none)
    ∧ (∀ v, findMatchingVariant prodTwoOpt selTwoOpt = some v →
        v ∈ prodTwoOpt.variants ∧ claimMatches prodTwoOpt.configurable_options selTwoOpt v)
    ∧ ((∀ code ∈ requiredCodes prodTwoOpt.configurable_options,
          (selectedByCode prodTwoOpt.configurable_options selTwoOpt code).isSome = true) →
        ((∃ v ∈ prodTwoOpt.variants, claimMatches prodTwoOpt.configurable_options selTwoOpt v) ↔
          ∃ v, findMatchingVariant prodTwoOpt selTwoOpt = some v)) :=
  findMatchingVariant_characterization prodTwoOpt selTwoOpt (by decide) (by decide)

/-- The add-to-cart button's disabled predicate of the variant-based
`ProductDetailPage` (line 312):
`addingToCart || (product?.configurable_options?.length > 0 && !selectedVariant)`,
where `selectedVariant` is kept equal to
`findMatchingVariant(product, selectedOptions)` by the effect at lines
156-163. -/
def addToCartDisabledV1 (addingToCart : Bool) (prod : CfgProduct)
    (selections : Nat → Option Int) : Bool :=
  addingToCart ||
    (!prod.configurable_options.isEmpty && (findMatchingVariant prod selections).isNone)

/-- A product of the second `ProductDetailPage` version as `canAddToCart`
reads it. -/
structure CfgProductV2 where
  typename : String
  stock_status : String
  configurable_options : List CfgOption
  deriving DecidableEq

/-- `isInStock` of the second version (line 471-473). -/
def isInStockV2 (p : CfgProductV2) : Bool :=
  p.stock_status == "IN_STOCK"

/-- `isConfigurableProduct` (lines 426-428). -/
def isConfigurableProduct (p : CfgProductV2) : Bool :=
  p.typename == "ConfigurableProduct"

/-- `canAddToCart` (lines 430-440): in stock, and for a configurable product
`Object.keys(selectedOptions).length` equals the number of configurable
options.  `selObj` models the `selectedOptions` object as its entry list
(one entry per distinct selected option id). -/
def canAddToCart (p : CfgProductV2) (selObj : List (Nat × String)) : Bool :=
  if !isInStockV2 p then false
  else if isConfigurableProduct p then
    p.configurable_options.length == selObj.length
  else true

/-- The button's disabled predicate of the second version (line 620):
`addingToCart || !canAddToCart()`. -/
def addToCartDisabledV2 (addingToCart : Bool) (p : CfgProductV2)
    (selObj : List (Nat × String)) : Bool :=
  addingToCart || !canAddToCart p selObj

/-- A one-option configurable product with an empty variants list. -/
def prodNoVariants : CfgProduct :=
  { configurable_options := [{ id := 1, attribute_code := "color" }],
    variants := [] }

/-- A selection giving option id 1 the value 10. -/
def selColor10 : Nat → Option Int :=
  fun i => if i = 1 then some 10 else none

/-- Claim C7 (counterexample): in the variant-based `ProductDetailPage`,
selecting a value for every configurable option does NOT by itself enable
the add-to-cart control: for the in-stock configurable product
`prodNoVariants`, every option id has a selection and no request is in
flight, yet the disabled predicate stays `true` because no variant matches
the selection (`findMatchingVariant` returns `null`). -/
theorem allOptionsSelected_but_still_disabled :
    (∀ opt ∈ prodNoVariants.configurable_options, (selColor10 opt.id).isSome = true)
    ∧ addToCartDisabledV1 false prodNoVariants selColor10 = true := by
  exact ⟨by decide, by decide⟩

/-- Claim C7 (amended): the add-to-cart control is enabled when no request
is in flight and, in the variant-based version, the selection resolves to a
matching variant (`findMatchingVariant` returns one) — selecting all options
alone is not sufficient; in the `canAddToCart` version, for an in-stock
product, selections covering exactly the configurable option ids make
`canAddToCart` true and the control's disabled state equal to the in-flight
flag. -/
theorem add_to_cart_enable_conditions (prod : CfgProduct) (sel : Nat → Option Int)
    (p2 : CfgProductV2) (selObj : List (Nat × String)) (v : Variant)
    (h1 : findMatchingVariant prod sel = some v)
    (h2 : isInStockV2 p2 = true)
    (h3 : List.Perm (selObj.map Prod.fst) (p2.configurable_options.map (fun o => o.id))) :
    addToCartDisabledV1 false prod sel = false
    ∧ canAddToCart p2 selObj = true
    ∧ (∀ adding : Bool, addToCartDisabledV2 adding p2 selObj = adding) := by
  have hlen : p2.configurable_options.length = selObj.length := by
    have h := h3.length_eq
    rw [List.length_map, List.length_map] at h
    exact h.symm
  have hcan : canAddToCart p2 selObj = true := by
    unfold canAddToCart
    rw [h2]
    cases hp : isConfigurableProduct p2 with
    | true => simp [hlen]
    | false => simp
  refine ⟨?_, hcan, ?_⟩
  · simp [addToCartDisabledV1, h1]
  · intro adding
    simp [addToCartDisabledV2, hcan]

/-- Witness for `add_to_cart_enable_conditions`: the fully selected
`prodTwoOpt` (whose selection matches its second variant) and an in-stock
configurable product with both options selected. -/
theorem add_to_cart_enable_conditions_witness :
    addToCartDisabledV1 false prodTwoOpt selTwoOpt = false
    ∧ canAddToCart
        { typename := "ConfigurableProduct", stock_status := "IN_STOCK",
          configurable_options := [{ id := 1, attribute_code := "color" },
                                   { id := 2, attribute_code := "size" }] }
        [(1, "11"), (2, "20")] = true
    ∧ (∀ adding : Bool, addToCartDisabledV2 adding
        { typename := "ConfigurableProduct", stock_status := "IN_STOCK",
          configurable_options := [{ id := 1, attribute_code := "color" },
                                   { id := 2, attribute_code := "size" }] }
        [(1, "11"), (2, "20")] = adding) :=
  add_to_cart_enable_conditions prodTwoOpt selTwoOpt
    { typename := "ConfigurableProduct", stock_status := "IN_STOCK",
      configurable_options := [{ id := 1, attribute_code := "color" },
                               { id := 2, attribute_code := "size" }] }
    [(1, "11"), (2, "20")]
    { attributes := [{ code := "color", value_index := 11 },
                     { code := "size", value_index := 20 }] }
    (by decide) (by decide) (by decide)

/-! ### Product-detail stock loading (`src/components/ProductDetail.js`
lines 23-42 and 90; the stock service operation itself is not in src) -/

/-- A stock record as the product-detail components read it. -/
structure StockItem where
  is_in_stock : Bool
  qty : Int
  deriving DecidableEq

/-- A stock-endpoint response. -/
inductive StockResp where
  | ok (s : StockItem)
  | err (status : Nat)
  deriving DecidableEq

/-- Modelled from the spec: the URL of the stock endpoint consumed by the
client.  The service operation (`magentoApi.getStockInfo` /
`fetchStockBySku`) is missing from src — only its callers in
`ProductDetail.js` and `ProductDetails.js` are present — and the spec lists
`GET /rest/V1/stockItems/{sku}` among the consumed REST interfaces. -/
def stockItemUrl (sku : String) : String :=
  "/rest/V1/stockItems/" ++ sku

/-- Modelled from the spec: `getStockInfo(sku)` issues a GET to
`stockItemUrl sku` and returns the stock record (`is_in_stock`, `qty`)
parsed from the response, failing on a non-ok status. -/
def getStockInfo (sku : String) (resp : StockResp) : List String × Except String StockItem :=
  ([stockItemUrl sku],
    match resp with
    | .ok s => .ok s
    | .err status => .error ("HTTP error! status: " ++ toString status))

/-- `fetchProductBySku` of the REST service (`src/unnamed/part_016` lines
83-105): a GET to `API_ENDPOINT/products/encodeURIComponent(sku)`. -/
def fetchProductBySkuRun (sku : String) (resp : RestResp) : List String × Except String String :=
  ([getCorsProxyUrl (restApiEndpoint ++ "/products/" ++ encodeURIComponent sku)
      (needsCorsProxy restBaseUrl)],
    match resp with
    | .ok body => .ok body
    | .httpErr status _ =>
      .error ("Failed to fetch product " ++ sku ++ ": HTTP error! status: " ++ toString status))

/-- The component state `fetchProductDetails` leaves behind. -/
structure PDState where
  requests : List String
  product : Option String
  stockInfo : Option StockItem
  error : Option String
  deriving DecidableEq

/-- `fetchProductDetails` of `ProductDetail.js` (lines 23-42): issue the
product and stock requests in parallel (`Promise.all`) and join; any
rejection sets the error state and leaves both results unset. -/
def productDetailLoad (sku : String) (presp : RestResp) (sresp : StockResp) : PDState :=
  let pReq := fetchProductBySkuRun sku presp
  let sReq := getStockInfo sku sresp
  let requests := pReq.1 ++ sReq.1
  match pReq.2, sReq.2 with
  | .ok p, .ok s =>
    { requests := requests, product := some p, stockInfo := some s, error := none }
  | .error e, _ =>
    { requests := requests, product := none, stockInfo := none, error := some e }
  | _, .error e =>
    { requests := requests, product := none, stockInfo := none, error := some e }

/-- The stock-status rendering test of `ProductDetail.js` line 90:
`stockInfo && stockInfo.is_in_stock && stockInfo.qty > 0`. -/
def isInStockPD : Option StockItem → Bool
  | none => false
  | some s => s.is_in_stock && decide (0 < s.qty)

/-- Claim C5 (stock operation modelled from the spec): every product-detail
load issues a request to `/rest/V1/stockItems/{sku}`, and on success the
returned stock record (`is_in_stock`, `qty`) is the one rendered into the
stock status. -/
theorem productDetail_stock_request (sku body : String) (s : StockItem) :
    stockItemUrl sku ∈ (productDetailLoad sku (.ok body) (.ok s)).requests
    ∧ stockItemUrl sku = "/rest/V1/stockItems/" ++ sku
    ∧ (productDetailLoad sku (.ok body) (.ok s)).stockInfo = some s
    ∧ isInStockPD (productDetailLoad sku (.ok body) (.ok s)).stockInfo =
        (s.is_in_stock && decide (0 < s.qty)) := by
  refine ⟨?_, rfl, rfl, rfl⟩
  simp [productDetailLoad, fetchProductBySkuRun, getStockInfo]
